import Mathlib

/-!
Verification development for the Sycon agent orchestration loop
(`src/Python/syconUI.py`, class `SyconConsciousness`).

The Python source is shallowly embedded below: each method that the
claims depend on is translated into an executable Lean function over
explicit state records.  External collaborators (the Ollama completion
service, the tkinter UI, the clock, the filesystem) are modelled as
parameters: a streaming completion is a list of text fragments, a
summarization call is the summary string it would return, and the UI
callbacks become an explicit event list.
-/

/-! ## String helpers mirroring the Python string operations used -/

/-- The whitespace characters removed by the Python `str.strip()` method
(space, tab, newline, carriage return, vertical tab, form feed). -/
def isPyWhitespace (c : Char) : Bool :=
  c == ' ' || c == '\t' || c == '\n' || c == '\r' ||
    c == Char.ofNat 11 || c == Char.ofNat 12

/-- Python `s.strip()`: remove leading and trailing whitespace. -/
def pyStrip (s : String) : String :=
  ⟨((s.data.dropWhile isPyWhitespace).reverse.dropWhile isPyWhitespace).reverse⟩

/-- Python `s.strip(QUOTE)`: remove leading and trailing double-quote characters. -/
def stripQuoteChars (s : String) : String :=
  ⟨((s.data.dropWhile (· == '"')).reverse.dropWhile (· == '"')).reverse⟩

/-- Python `QUOTE in s`: the string contains a double-quote character. -/
def containsQuote (s : String) : Bool :=
  s.data.contains '"'

/-- Python `s.endswith(QUOTE)`: the last character is a double quote. -/
def endsWithQuote (s : String) : Bool :=
  s.data.getLast? == some '"'

/-- Python `s.split(QUOTE, 1)`: split at the first double quote, which is
discarded.  Only used when the quote is present. -/
def splitFirstQuote (s : String) : String × String :=
  let pre := s.data.takeWhile (fun c => !(c == '"'))
  (⟨pre⟩, ⟨s.data.drop (pre.length + 1)⟩)

/-- Python `s[:-1]`: drop the final character. -/
def dropLastChar (s : String) : String :=
  ⟨s.data.dropLast⟩

/-- Python `s[:n]`. -/
def strTake (s : String) (n : Nat) : String :=
  ⟨s.data.take n⟩

/-- Python `s[n:]`. -/
def strDrop (s : String) (n : Nat) : String :=
  ⟨s.data.drop n⟩

/-- Concatenation of a list of strings, in order. -/
def concatStrings : List String → String
  | [] => ""
  | a :: t => a ++ concatStrings t

/-! ## Data model -/

/-- One entry of the conversation history handed to the model
(`self.full_context` holds dictionaries with keys role and content). -/
structure Message where
  role : String
  content : String
deriving DecidableEq

/-- An observable UI event: `ui_callback_thought text tag` or
`ui_callback_chat text sender`. -/
inductive SyEvent where
  | thought (text : String) (tag : String)
  | chat (text : String) (sender : String)
deriving DecidableEq

/-- The texts of the thought events of an event list, in order. -/
def thoughtTexts (evs : List SyEvent) : List String :=
  evs.filterMap fun e =>
    match e with
    | SyEvent.thought t _ => some t
    | SyEvent.chat _ _ => none

/-- The texts of the chat (speech) events of an event list, in order. -/
def chatTexts (evs : List SyEvent) : List String :=
  evs.filterMap fun e =>
    match e with
    | SyEvent.thought _ _ => none
    | SyEvent.chat t _ => some t

/-- The local state of one streaming completion request inside
`consciousness_loop`: the variables `current_thought_chunk`,
`capture_say_message`, `say_message_buffer` (lines 265-267), the shared
`self.full_context`, and the list of UI events emitted so far. -/
structure LoopState where
  current_thought_chunk : String
  capture_say_message : Bool
  say_message_buffer : String
  full_context : List Message
  events : List SyEvent
deriving DecidableEq

/-! ## Stream parser (body of the `for chunk in stream` loop, lines 269-319) -/

/-- Processing of one stream fragment `word` (lines 273-319 of
`consciousness_loop`): `current_thought_chunk += word`, then either start
capturing at the first quote, continue capturing and close on a trailing
quote, or emit the fragment as a thought if it is not blank. -/
def process_word (s : LoopState) (word : String) : LoopState :=
  let ctc := s.current_thought_chunk ++ word
  if !s.capture_say_message && containsQuote ctc then
    let parts := splitFirstQuote ctc
    { s with
      current_thought_chunk := "",
      capture_say_message := true,
      say_message_buffer := s.say_message_buffer ++ parts.2,
      events := s.events ++ [SyEvent.thought parts.1 "thought"] }
  else if s.capture_say_message then
    let buf := s.say_message_buffer ++ word
    if endsWithQuote (pyStrip buf) then
      let fm0 := pyStrip buf
      let fm := if endsWithQuote fm0 then pyStrip (dropLastChar fm0) else fm0
      { s with
        current_thought_chunk := ctc,
        capture_say_message := false,
        say_message_buffer := "",
        full_context := s.full_context ++ [⟨"assistant", "I said to the User: " ++ fm⟩],
        events := s.events ++ [SyEvent.chat fm "Sycon"] }
    else
      { s with current_thought_chunk := ctc, say_message_buffer := buf }
  else if !s.capture_say_message && pyStrip word != "" then
    { s with
      current_thought_chunk := ctc,
      events := s.events ++ [SyEvent.thought word "thought"] }
  else
    { s with current_thought_chunk := ctc }

/-- The fragment loop run to the end of the stream (no pause or stop). -/
def run_stream : LoopState → List String → LoopState
  | s, [] => s
  | s, w :: ws => run_stream (process_word s w) ws

/-- The fragment loop where each fragment is paired with the value of
`not (stop_event.is_set() or not running)` read at the top of the loop
body (line 270): a false flag breaks out of the loop. -/
def run_stream_flags : LoopState → List (Bool × String) → LoopState
  | s, [] => s
  | s, (r, w) :: ws => if r then run_stream_flags (process_word s w) ws else s

/-- The safety net condition of lines 327-329: returns the delivered
incomplete text, if any. -/
def safety_net (capture : Bool) (buf : String) : Option String :=
  if capture && pyStrip buf != "" then
    let fm := stripQuoteChars (pyStrip buf)
    if fm != "" then some fm else none
  else
    none

/-- End-of-stream handling (lines 321-339): `full_context.pop()`, the
incomplete-speech safety net, and the append of `current_thought_chunk`
as an assistant message plus the final newline thought event. -/
def stream_end (ls : LoopState) : LoopState :=
  match safety_net ls.capture_say_message ls.say_message_buffer with
  | some fm =>
      { ls with
        full_context := ls.full_context.dropLast ++
          [⟨"assistant", "I said to the User (incomplete): " ++ fm⟩,
           ⟨"assistant", ls.current_thought_chunk⟩],
        events := ls.events ++
          [SyEvent.chat ("[Incomplete]: " ++ fm) "Sycon",
           SyEvent.thought "\n" "thought"] }
  | none =>
      { ls with
        full_context := ls.full_context.dropLast ++
          [⟨"assistant", ls.current_thought_chunk⟩],
        events := ls.events ++ [SyEvent.thought "\n" "thought"] }

/-! ## Session state and the orchestration loop -/

/-- The fields of `SyconConsciousness` touched by the claims. -/
structure SessionState where
  running : Bool
  context_buffer : String
  pending_user_input : List String
  full_context : List Message
  session_chat_log : String
deriving DecidableEq

/-- Phase 1 of `consciousness_loop` (lines 231-235), recursing over the
drained queue items in FIFO order. -/
def drain_list : SessionState → List String → SessionState
  | s, [] => s
  | s, inp :: rest =>
      drain_list
        { s with
          full_context := s.full_context ++ [⟨"user", "React to this: " ++ inp⟩],
          session_chat_log := s.session_chat_log ++ ("\n[User said]: " ++ inp),
          context_buffer := s.context_buffer ++ inp }
        rest

/-- `while self.pending_user_input: inp = self.pending_user_input.pop(0); ...`:
drain the whole queue in FIFO order. -/
def drain_inputs (s : SessionState) : SessionState :=
  drain_list { s with pending_user_input := [] } s.pending_user_input

/-- Configuration constant of line 14. -/
def MAX_CONTEXT_CHARS : Nat := 12000

/-- The archive note of line 201 built around the model-generated summary. -/
def prunedNote (summary : String) : String :=
  "\n[INTERNAL ARCHIVE NOTE (Pruning System): Older thoughts summarized: \"" ++
    summary ++ "\"]\n"

/-- `prune_context` (lines 182-210).  `summary` is the value returned by the
external `get_llm_summary` call.  The Python cut length
`int(len(self.context_buffer) * 0.20)` equals `length / 5` by Nat division:
the IEEE double nearest to 0.20 is slightly above 0.20, so the rounded
product never falls below a multiple of one fifth and never reaches the
next integer for any feasible buffer length. -/
def prune_context (summary : String) (buffer : String) : String :=
  if buffer.length > MAX_CONTEXT_CHARS then
    let cut_length := buffer.length / 5
    prunedNote summary ++ strDrop buffer cut_length
  else
    buffer

/-- The ephemeral steering instruction of lines 245-248 (the second
assignment to `prompt_trigger` overwrites the first). -/
def prompt_trigger : String :=
  "Continue your stream of consciousness. Reflect, observe, or decide to speak. " ++
  "**CRITICAL REMINDER: If you speak to the user, you MUST use double quotes for the entire message (e.g., \"Hello, User.\")**"

/-- Result of one pass of the `while` body of `consciousness_loop`: the
new session state, the UI events emitted, and the message list sent to the
completion request (`none` when no request was issued). -/
structure IterResult where
  state : SessionState
  events : List SyEvent
  requested : Option (List Message)
deriving DecidableEq

/-- One iteration of `consciousness_loop` (lines 225-353) in which the
completion request succeeds.  `stream` pairs every fragment with the value
of the continue flag read at line 270. -/
def consciousness_iteration (pruneSummary : String)
    (stream : List (Bool × String)) (s : SessionState) : IterResult :=
  if s.running then
    let s1 := drain_inputs s
    let s2 := { s1 with context_buffer := prune_context pruneSummary s1.context_buffer }
    let ctxReq := s2.full_context ++ [⟨"user", prompt_trigger⟩]
    let ls := stream_end (run_stream_flags ⟨"", false, "", ctxReq, []⟩ stream)
    ⟨{ s2 with
        full_context := ls.full_context,
        context_buffer := s2.context_buffer ++ ls.current_thought_chunk },
      ls.events, some ctxReq⟩
  else
    ⟨s, [], none⟩

/-- One iteration of `consciousness_loop` in which the request raises after
`streamPrefix` fragments were processed (lines 342-350): the handler emits
an error notice (text `errText`, a value of the f-string at line 343) and
pops the last context entry. -/
def consciousness_iteration_fail (pruneSummary errText : String)
    (streamPrefix : List (Bool × String)) (s : SessionState) : IterResult :=
  if s.running then
    let s1 := drain_inputs s
    let s2 := { s1 with context_buffer := prune_context pruneSummary s1.context_buffer }
    let ctxReq := s2.full_context ++ [⟨"user", prompt_trigger⟩]
    let ls := run_stream_flags ⟨"", false, "", ctxReq, []⟩ streamPrefix
    ⟨{ s2 with full_context := ls.full_context.dropLast },
      ls.events ++ [SyEvent.thought errText "system"], some ctxReq⟩
  else
    ⟨s, [], none⟩

/-- The initial kickoff entry pushed by `start_new_session` (line 76). -/
def kickoff_note : String :=
  "\n[SYSTEM KICKOFF: Begin reflection on goals and past existence.]\n"

/-- `start_new_session` (lines 59-81).  `promptAvailable` is whether the
prompt template file exists; `initial_prompt` is the formatted prompt that
`get_initial_prompt` would return.  The boolean result records whether the
session began; on a missing prompt file the `FileNotFoundError` of line 44
propagates after the session-data resets of lines 66-67 have run. -/
def start_new_session (promptAvailable : Bool) (initial_prompt : String)
    (s : SessionState) : SessionState × Bool :=
  let s1 := { s with context_buffer := "", pending_user_input := ([] : List String) }
  if promptAvailable then
    ({ s1 with
        full_context := [⟨"system", initial_prompt⟩],
        pending_user_input := [kickoff_note],
        running := true }, true)
  else
    (s1, false)

/-! ## Helper lemmas -/

theorem strData_append (a b : String) : (a ++ b).data = a.data ++ b.data := rfl

theorem strAppend_empty (a : String) : a ++ "" = a := by
  cases a with
  | mk d =>
    show String.mk (d ++ []) = String.mk d
    rw [List.append_nil]

theorem strAppend_assoc (a b c : String) : (a ++ b) ++ c = a ++ (b ++ c) := by
  cases a with
  | mk x =>
    cases b with
    | mk y =>
      cases c with
      | mk z =>
        show String.mk ((x ++ y) ++ z) = String.mk (x ++ (y ++ z))
        rw [List.append_assoc]

theorem head?_append_left {α : Type} (xs ys : List α) (h : xs ≠ []) :
    (xs ++ ys).head? = xs.head? := by
  cases xs with
  | nil => exact absurd rfl h
  | cons a t => rfl

theorem dropLast_append_right {α : Type} (xs ys : List α) (h : ys ≠ []) :
    (xs ++ ys).dropLast = xs ++ ys.dropLast := by
  induction xs with
  | nil => rfl
  | cons x t ih =>
    have ht : t ++ ys ≠ [] := by
      intro hc
      rcases List.append_eq_nil.mp hc with ⟨_, h2⟩
      exact h h2
    cases hm : t ++ ys with
    | nil => exact absurd hm ht
    | cons a l =>
      show (x :: (t ++ ys)).dropLast = x :: (t ++ ys.dropLast)
      rw [hm, List.dropLast_cons₂, ← hm, ih]

theorem drain_list_pending (l : List String) (s : SessionState) :
    (drain_list s l).pending_user_input = s.pending_user_input := by
  induction l generalizing s with
  | nil => rfl
  | cons i t ih => simpa [drain_list] using ih _

theorem drain_list_running (l : List String) (s : SessionState) :
    (drain_list s l).running = s.running := by
  induction l generalizing s with
  | nil => rfl
  | cons i t ih => simpa [drain_list] using ih _

theorem drain_list_full_context (l : List String) (s : SessionState) :
    (drain_list s l).full_context =
      s.full_context ++ l.map (fun inp => (⟨"user", "React to this: " ++ inp⟩ : Message)) := by
  induction l generalizing s with
  | nil => simp [drain_list]
  | cons i t ih =>
    rw [drain_list, ih]
    simp

theorem drain_list_chat_log (l : List String) (s : SessionState) :
    (drain_list s l).session_chat_log =
      s.session_chat_log ++ concatStrings (l.map (fun inp => "\n[User said]: " ++ inp)) := by
  induction l generalizing s with
  | nil => simp [drain_list, concatStrings, strAppend_empty]
  | cons i t ih =>
    rw [drain_list, ih]
    exact strAppend_assoc _ _ _

theorem drain_list_context_buffer (l : List String) (s : SessionState) :
    (drain_list s l).context_buffer = s.context_buffer ++ concatStrings l := by
  induction l generalizing s with
  | nil => simp [drain_list, concatStrings, strAppend_empty]
  | cons i t ih =>
    rw [drain_list, ih]
    exact strAppend_assoc _ _ _

theorem process_word_context_append (s : LoopState) (w : String) :
    ∃ l : List Message, (process_word s w).full_context = s.full_context ++ l := by
  simp only [process_word]
  split
  · exact ⟨[], (List.append_nil _).symm⟩
  · split
    · split
      · exact ⟨[_], rfl⟩
      · exact ⟨[], (List.append_nil _).symm⟩
    · split
      · exact ⟨[], (List.append_nil _).symm⟩
      · exact ⟨[], (List.append_nil _).symm⟩

theorem run_stream_flags_context_append (st : List (Bool × String)) (ls : LoopState) :
    ∃ l : List Message, (run_stream_flags ls st).full_context = ls.full_context ++ l := by
  induction st generalizing ls with
  | nil => exact ⟨[], (List.append_nil _).symm⟩
  | cons p t ih =>
    obtain ⟨r, w⟩ := p
    rw [run_stream_flags]
    by_cases hr : r = true
    · rw [hr, if_pos rfl]
      obtain ⟨l1, h1⟩ := ih (process_word ls w)
      obtain ⟨l0, h0⟩ := process_word_context_append ls w
      exact ⟨l0 ++ l1, by rw [h1, h0, List.append_assoc]⟩
    · rw [Bool.eq_false_iff.mpr hr, if_neg (by simp)]
      exact ⟨[], (List.append_nil _).symm⟩

theorem stream_end_context (ls : LoopState) :
    ∃ zs : List Message, zs ≠ [] ∧
      (stream_end ls).full_context = ls.full_context.dropLast ++ zs := by
  rw [stream_end]
  cases safety_net ls.capture_say_message ls.say_message_buffer with
  | none => exact ⟨[⟨"assistant", ls.current_thought_chunk⟩], by simp, rfl⟩
  | some fm =>
    exact ⟨[⟨"assistant", "I said to the User (incomplete): " ++ fm⟩,
            ⟨"assistant", ls.current_thought_chunk⟩], by simp, rfl⟩

/-! ## Claim theorems -/

/-- Claim C6: whenever the monologue buffer has length L greater than
MAX_CONTEXT_CHARS, pruning removes exactly floor(0.20*L) leading
characters, replaces them with the single tagged archive note containing
the summary, and leaves the remaining characters unchanged and appended
after the note; the total buffer length strictly decreases exactly when
the archive note is shorter than the cut length. -/
theorem sycon_c6_prune_exact (summary buffer : String)
    (h : buffer.length > MAX_CONTEXT_CHARS) :
    prune_context summary buffer
        = prunedNote summary ++ strDrop buffer (buffer.length / 5)
    ∧ strTake buffer (buffer.length / 5) ++ strDrop buffer (buffer.length / 5) = buffer
    ∧ (prune_context summary buffer).length
        = (prunedNote summary).length + (buffer.length - buffer.length / 5)
    ∧ ((prune_context summary buffer).length < buffer.length
        ↔ (prunedNote summary).length < buffer.length / 5) := by
  have h5 : buffer.length / 5 ≤ buffer.length := Nat.div_le_self _ _
  have happ : ∀ a b : String, (a ++ b).length = a.length + b.length := by
    intro a b
    show (a.data ++ b.data).length = a.data.length + b.data.length
    rw [List.length_append]
  have h1 : prune_context summary buffer
      = prunedNote summary ++ strDrop buffer (buffer.length / 5) := by
    rw [prune_context, if_pos h]
  have h2 : strTake buffer (buffer.length / 5) ++ strDrop buffer (buffer.length / 5)
      = buffer := by
    cases buffer with
    | mk d =>
      show String.mk (d.take _ ++ d.drop _) = String.mk d
      rw [List.take_append_drop]
  have h3 : (prune_context summary buffer).length
      = (prunedNote summary).length + (buffer.length - buffer.length / 5) := by
    rw [h1, happ]
    congr 1
    show (buffer.data.drop (buffer.length / 5)).length = buffer.length - buffer.length / 5
    rw [List.length_drop]
    rfl
  exact ⟨h1, h2, h3, by rw [h3]; omega⟩

/-- Witness for C6 at a concrete buffer of 12001 characters. -/
theorem sycon_c6_witness :
    (String.mk (List.replicate 12001 'a')).length > MAX_CONTEXT_CHARS
    ∧ prune_context "ok" (String.mk (List.replicate 12001 'a'))
        = prunedNote "ok" ++
            strDrop (String.mk (List.replicate 12001 'a'))
              ((String.mk (List.replicate 12001 'a')).length / 5) := by
  have h : (String.mk (List.replicate 12001 'a')).length > MAX_CONTEXT_CHARS := by
    show (List.replicate 12001 'a').length > 12000
    rw [List.length_replicate]
    omega
  exact ⟨h, (sycon_c6_prune_exact "ok" _ h).1⟩

/-- Claim C4 counterexample: with a non-empty monologue buffer "x" and a
non-empty pending queue, a session start that fails on a missing prompt
file does NOT leave the monologue buffer and the pending-input queue
unchanged: both are cleared before the prompt load is attempted. -/
theorem sycon_c4_counterexample :
    (start_new_session false "P" ⟨false, "x", ["y"], [], ""⟩).1.context_buffer = ""
    ∧ ¬((start_new_session false "P" ⟨false, "x", ["y"], [], ""⟩).1.context_buffer
          = (⟨false, "x", ["y"], [], ""⟩ : SessionState).context_buffer)
    ∧ (start_new_session false "P" ⟨false, "x", ["y"], [], ""⟩).1.pending_user_input = [] := by
  decide

/-- Claim C4 (amended): if the prompt template file is missing, session
start aborts with the fatal error and the session does not begin: the
context and transcript are unchanged and `running` is untouched, but the
monologue buffer and the pending-input queue have already been cleared by
the session-data reset that precedes the prompt load. -/
theorem sycon_c4_failed_start (p : String) (s : SessionState) :
    (start_new_session false p s).2 = false
    ∧ (start_new_session false p s).1.full_context = s.full_context
    ∧ (start_new_session false p s).1.running = s.running
    ∧ (start_new_session false p s).1.session_chat_log = s.session_chat_log
    ∧ (start_new_session false p s).1.context_buffer = ""
    ∧ (start_new_session false p s).1.pending_user_input = [] :=
  ⟨rfl, rfl, rfl, rfl, rfl, rfl⟩

/-- Claim C3 counterexample: a stream of fragments "a" then "b" where
`running` reads false at the second fragment delivers only the thought
event for "a": the events of the in-flight request are NOT all delivered,
unlike the run of the same stream with `running` true throughout. -/
theorem sycon_c3_counterexample :
    thoughtTexts (run_stream_flags ⟨"", false, "", [], []⟩
        [(true, "a"), (false, "b")]).events = ["a"]
    ∧ thoughtTexts (run_stream ⟨"", false, "", [], []⟩ ["a", "b"]).events = ["a", "b"]
    ∧ (run_stream_flags ⟨"", false, "", [], []⟩ [(true, "a"), (false, "b")]).events
        ≠ (run_stream ⟨"", false, "", [], []⟩ ["a", "b"]).events := by
  decide

/-- Claim C3 (amended): setting `running` to false while a request is in
flight makes the fragment loop break at the next fragment, so fragments
from that point on are not processed or delivered; and no loop iteration
starts while `running` is false (the iteration is a no-op that issues no
request). -/
theorem sycon_c3_pause_semantics :
    (∀ (ls : LoopState) (w : String) (rest : List (Bool × String)),
        run_stream_flags ls ((false, w) :: rest) = ls)
    ∧ ∀ (sum : String) (stream : List (Bool × String)) (s : SessionState),
        s.running = false → consciousness_iteration sum stream s = ⟨s, [], none⟩ := by
  constructor
  · intro ls w rest
    rfl
  · intro sum stream s h
    simp [consciousness_iteration, h]

/-- Witness for C3 at concrete inputs. -/
theorem sycon_c3_witness :
    run_stream_flags ⟨"", false, "", [], []⟩ [(false, "w")] = ⟨"", false, "", [], []⟩
    ∧ consciousness_iteration "s" [(true, "a")] ⟨false, "b", ["p"], [⟨"system", "S"⟩], "l"⟩
        = ⟨⟨false, "b", ["p"], [⟨"system", "S"⟩], "l"⟩, [], none⟩ := by
  obtain ⟨h1, h2⟩ := sycon_c3_pause_semantics
  exact ⟨h1 _ "w" [], h2 "s" [(true, "a")] _ rfl⟩

/-- Claim C10 counterexample: after the stream fragments "x QUOTE" and
" QUOTE" the parser is back in THOUGHT mode but the look-back chunk still
holds a quote character; processing the whitespace-only fragment " " then
emits a thought event (with whitespace-only text " "), so a whitespace-only
fragment in THOUGHT mode is not always silently dropped. -/
theorem sycon_c10_counterexample :
    (run_stream ⟨"", false, "", [], []⟩ ["x\"", " \""]).capture_say_message = false
    ∧ pyStrip " " = ""
    ∧ (process_word (run_stream ⟨"", false, "", [], []⟩ ["x\"", " \""]) " ").events
        = (run_stream ⟨"", false, "", [], []⟩ ["x\"", " \""]).events
            ++ [SyEvent.thought " " "thought"] := by
  decide

/-- Claim C10 (amended): in THOUGHT mode, when the accumulated look-back
chunk extended by the fragment contains no quote character, a fragment that
is empty or consists only of whitespace is silently dropped from the thought
event stream while still being accumulated into the thought chunk (so the
concatenation of emitted thought events can differ from the generated
thought text by such fragments); if a leftover quote is present in the
chunk, the capture-start branch can instead emit a thought event. -/
theorem sycon_c10_blank_dropped (s : LoopState) (w : String)
    (h1 : s.capture_say_message = false)
    (h2 : pyStrip w = "")
    (h3 : containsQuote (s.current_thought_chunk ++ w) = false) :
    (process_word s w).events = s.events
    ∧ (process_word s w).current_thought_chunk = s.current_thought_chunk ++ w
    ∧ (process_word s w).full_context = s.full_context := by
  simp [process_word, h1, h2, h3]

/-- Witness for C10 at a concrete state and fragment. -/
theorem sycon_c10_witness :
    (process_word ⟨"t", false, "", [], []⟩ " ").events = []
    ∧ (process_word ⟨"t", false, "", [], []⟩ " ").current_thought_chunk = "t" ++ " "
    ∧ (process_word ⟨"t", false, "", [], []⟩ " ").full_context = [] :=
  sycon_c10_blank_dropped ⟨"t", false, "", [], []⟩ " " rfl (by decide) (by decide)

theorem head?_sandwich {α : Type} (xs ys zs : List α) (hx : xs ≠ []) (hy : ys ≠ []) :
    ((xs ++ ys).dropLast ++ zs).head? = xs.head? := by
  rw [dropLast_append_right _ _ hy, List.append_assoc, head?_append_left _ _ hx]

theorem head?_dropLast_append {α : Type} (xs ys : List α) (hx : xs ≠ []) (hy : ys ≠ []) :
    ((xs ++ ys).dropLast).head? = xs.head? := by
  rw [dropLast_append_right _ _ hy, head?_append_left _ _ hx]

set_option maxRecDepth 10000 in
/-- Claim C1: on the specification example stream, split into the fragments
" Thinking... ", a quote, "Hi there!", a quote, " more thoughts", the parser
does NOT emit thought events " Thinking... " and " more thoughts" with a
single speech event "Hi there!": it emits " Thinking... " twice (once per
fragment and once more from the accumulated chunk at the quote split), then
re-emits the delivered speech text as a thought, and turns " more thoughts"
into an incomplete speech event, because `current_thought_chunk` is never
reset on the plain thought path nor after a delivered speech. -/
theorem sycon_c1_example_diverges :
    thoughtTexts (stream_end (run_stream ⟨"", false, "", [], []⟩
        [" Thinking... ", "\"", "Hi there!", "\"", " more thoughts"])).events
      = [" Thinking... ", " Thinking... ", "Hi there!", "\n"]
    ∧ chatTexts (stream_end (run_stream ⟨"", false, "", [], []⟩
        [" Thinking... ", "\"", "Hi there!", "\"", " more thoughts"])).events
      = ["Hi there!", "[Incomplete]: more thoughts"]
    ∧ thoughtTexts (stream_end (run_stream ⟨"", false, "", [], []⟩
        [" Thinking... ", "\"", "Hi there!", "\"", " more thoughts"])).events
      ≠ [" Thinking... ", " more thoughts"]
    ∧ chatTexts (stream_end (run_stream ⟨"", false, "", [], []⟩
        [" Thinking... ", "\"", "Hi there!", "\"", " more thoughts"])).events
      ≠ ["Hi there!"] := by
  decide

set_option maxRecDepth 10000 in
/-- Claim C2: in an iteration whose stream delivers a complete quoted span
(fragments containing a quote, "y", and a closing quote), the speech record
appended during the stream is the last context entry, so the
`full_context.pop()` of line 324 removes the speech record and the ephemeral
steering instruction survives in the stored context. -/
theorem sycon_c2_trigger_survives :
    (consciousness_iteration "sum" [(true, "x\"y"), (true, "\"")]
        ⟨true, "", [], [⟨"system", "SYS"⟩], ""⟩).state.full_context
      = [⟨"system", "SYS"⟩, ⟨"user", prompt_trigger⟩, ⟨"assistant", "\""⟩]
    ∧ ((consciousness_iteration "sum" [(true, "x\"y"), (true, "\"")]
        ⟨true, "", [], [⟨"system", "SYS"⟩], ""⟩).state.full_context.contains
          ⟨"user", prompt_trigger⟩) = true
    ∧ ((consciousness_iteration "sum" [(true, "x\"y"), (true, "\"")]
        ⟨true, "", [], [⟨"system", "SYS"⟩], ""⟩).state.full_context.contains
          ⟨"assistant", "I said to the User: y"⟩) = false
    ∧ chatTexts (consciousness_iteration "sum" [(true, "x\"y"), (true, "\"")]
        ⟨true, "", [], [⟨"system", "SYS"⟩], ""⟩).events = ["y"] := by
  decide

set_option maxRecDepth 10000 in
/-- Claim C5: in an iteration whose stream is the fragments "a " and a
fragment opening a quote, the thought events "a " are emitted (twice, by the
duplication bug), yet the text appended to the monologue buffer at end of
stream and recorded as the assistant message is the empty string, not the
concatenation of the generated thought fragments: `current_thought_chunk`
was reset at the quote split and only its remainder is recorded. -/
theorem sycon_c5_monologue_lost :
    thoughtTexts (consciousness_iteration "sum" [(true, "a "), (true, "\"hi\" b")]
        ⟨true, "m", [], [⟨"system", "SYS"⟩], ""⟩).events = ["a ", "a ", "\n"]
    ∧ (consciousness_iteration "sum" [(true, "a "), (true, "\"hi\" b")]
        ⟨true, "m", [], [⟨"system", "SYS"⟩], ""⟩).state.context_buffer = "m"
    ∧ (consciousness_iteration "sum" [(true, "a "), (true, "\"hi\" b")]
        ⟨true, "m", [], [⟨"system", "SYS"⟩], ""⟩).state.full_context
      = [⟨"system", "SYS"⟩,
         ⟨"assistant", "I said to the User (incomplete): hi\" b"⟩,
         ⟨"assistant", ""⟩] := by
  decide

/-- Claim C7 counterexample: for the stream fragments consisting of a quote
and then a single space, the stream ends in CAPTURING_SPEECH mode with the
non-empty accumulated text " ", yet no speech event at all is emitted by the
end-of-stream handling: the safety net requires the stripped text to be
non-blank, so whitespace-only captured text is silently dropped. -/
theorem sycon_c7_counterexample :
    (run_stream ⟨"", false, "", [], []⟩ ["\"", " "]).capture_say_message = true
    ∧ (run_stream ⟨"", false, "", [], []⟩ ["\"", " "]).say_message_buffer = " "
    ∧ (run_stream ⟨"", false, "", [], []⟩ ["\"", " "]).say_message_buffer ≠ ""
    ∧ chatTexts (stream_end (run_stream ⟨"", false, "", [], []⟩ ["\"", " "])).events
        = [] := by
  decide

/-- Claim C7 (amended): if the stream ends in CAPTURING_SPEECH mode and the
accumulated text is non-blank after stripping surrounding whitespace and
quote characters, exactly one incomplete speech event is emitted containing
that stripped text (so surrounding whitespace and quote characters of the
captured text are dropped), and the same text is recorded as an assistant
message in context. -/
theorem sycon_c7_safety_flush (ls : LoopState)
    (h1 : ls.capture_say_message = true)
    (h2 : stripQuoteChars (pyStrip ls.say_message_buffer) ≠ "") :
    (stream_end ls).events
      = ls.events ++
          [SyEvent.chat ("[Incomplete]: " ++ stripQuoteChars (pyStrip ls.say_message_buffer))
             "Sycon",
           SyEvent.thought "\n" "thought"]
    ∧ (stream_end ls).full_context
      = ls.full_context.dropLast ++
          [⟨"assistant", "I said to the User (incomplete): " ++
              stripQuoteChars (pyStrip ls.say_message_buffer)⟩,
           ⟨"assistant", ls.current_thought_chunk⟩] := by
  have hb : pyStrip ls.say_message_buffer ≠ "" := by
    intro hh
    apply h2
    rw [hh]
    rfl
  have hsn : safety_net ls.capture_say_message ls.say_message_buffer
      = some (stripQuoteChars (pyStrip ls.say_message_buffer)) := by
    simp [safety_net, h1, hb, h2]
  simp [stream_end, hsn]

/-- Witness for C7 at a concrete capture state. -/
theorem sycon_c7_witness :
    (stream_end ⟨"T", true, "q", [], []⟩).events
      = [SyEvent.chat "[Incomplete]: q" "Sycon", SyEvent.thought "\n" "thought"]
    ∧ (stream_end ⟨"T", true, "q", [], []⟩).full_context
      = [⟨"assistant", "I said to the User (incomplete): q"⟩, ⟨"assistant", "T"⟩] := by
  have h := sycon_c7_safety_flush ⟨"T", true, "q", [], []⟩ rfl (by decide)
  exact ⟨h.1.trans (by decide), h.2.trans (by decide)⟩

/-- Claim C8 counterexample: draining the single pending item "Hello" with
an empty transcript appends the tagged line, not the raw text: the
transcript becomes a User-said wrapper line rather than "Hello". -/
theorem sycon_c8_counterexample :
    (drain_inputs ⟨true, "", ["Hello"], [], ""⟩).session_chat_log
      = "\n[User said]: Hello"
    ∧ (drain_inputs ⟨true, "", ["Hello"], [], ""⟩).session_chat_log ≠ "" ++ "Hello" := by
  decide

/-- Claim C8 (amended): draining pops all pending items in strict FIFO order
and, for each item, appends a user-role wrapper message to the context,
appends the item text prefixed by a User-said tag to the session transcript,
and appends the raw text to the monologue buffer; in a running iteration all
pending inputs are folded into the message list sent to the completion
request, strictly before the request is issued, followed only by the
steering instruction. -/
theorem sycon_c8_drain_fifo (s : SessionState) :
    (drain_inputs s).pending_user_input = []
    ∧ (drain_inputs s).full_context
        = s.full_context ++
            s.pending_user_input.map
              (fun inp => (⟨"user", "React to this: " ++ inp⟩ : Message))
    ∧ (drain_inputs s).session_chat_log
        = s.session_chat_log ++
            concatStrings (s.pending_user_input.map (fun inp => "\n[User said]: " ++ inp))
    ∧ (drain_inputs s).context_buffer
        = s.context_buffer ++ concatStrings s.pending_user_input
    ∧ ∀ (sum : String) (stream : List (Bool × String)), s.running = true →
        (consciousness_iteration sum stream s).requested
          = some ((drain_inputs s).full_context ++ [⟨"user", prompt_trigger⟩]) := by
  refine ⟨?_, ?_, ?_, ?_, ?_⟩
  · rw [drain_inputs, drain_list_pending]
  · rw [drain_inputs, drain_list_full_context]
  · rw [drain_inputs, drain_list_chat_log]
  · rw [drain_inputs, drain_list_context_buffer]
  · intro sum stream h
    rw [consciousness_iteration, if_pos h]

/-- Witness for C8 at a concrete state with two pending items. -/
theorem sycon_c8_witness :
    (drain_inputs ⟨true, "B", ["u1", "u2"], [⟨"system", "S"⟩], "L"⟩).full_context
      = [⟨"system", "S"⟩, ⟨"user", "React to this: u1"⟩, ⟨"user", "React to this: u2"⟩]
    ∧ (consciousness_iteration "p" [] ⟨true, "B", ["u1", "u2"], [⟨"system", "S"⟩], "L"⟩).requested
      = some ((drain_inputs ⟨true, "B", ["u1", "u2"], [⟨"system", "S"⟩], "L"⟩).full_context
          ++ [⟨"user", prompt_trigger⟩]) := by
  have h := sycon_c8_drain_fifo ⟨true, "B", ["u1", "u2"], [⟨"system", "S"⟩], "L"⟩
  exact ⟨h.2.1.trans (by decide), h.2.2.2.2 "p" [] rfl⟩

/-- Claim C9: the first context entry is the system message created at
session start, and it is preserved by every loop iteration, whether the
completion request succeeds or fails: input draining, the steering-trigger
append and the later pop, speech and monologue recording, and the error
cleanup only append to the context or remove its last entry, which is never
the first because the steering instruction was appended before any removal. -/
theorem sycon_c9_system_first :
    (∀ (p : String) (s : SessionState),
        ((start_new_session true p s).1.full_context).head? = some ⟨"system", p⟩)
    ∧ (∀ (sum : String) (stream : List (Bool × String)) (s : SessionState),
        s.full_context ≠ [] →
        ((consciousness_iteration sum stream s).state.full_context).head?
          = s.full_context.head?)
    ∧ ∀ (sum err : String) (pre : List (Bool × String)) (s : SessionState),
        s.full_context ≠ [] →
        ((consciousness_iteration_fail sum err pre s).state.full_context).head?
          = s.full_context.head? := by
  refine ⟨fun p s => rfl, ?_, ?_⟩
  · intro sum stream s hne
    by_cases hr : s.running = true
    · rw [consciousness_iteration, if_pos hr]
      show ((stream_end (run_stream_flags
          ⟨"", false, "", (drain_inputs s).full_context ++ [⟨"user", prompt_trigger⟩], []⟩
          stream)).full_context).head? = s.full_context.head?
      obtain ⟨zs, hzne, hz⟩ := stream_end_context (run_stream_flags
          ⟨"", false, "", (drain_inputs s).full_context ++ [⟨"user", prompt_trigger⟩], []⟩
          stream)
      obtain ⟨l, hl⟩ := run_stream_flags_context_append stream
          ⟨"", false, "", (drain_inputs s).full_context ++ [⟨"user", prompt_trigger⟩], []⟩
      rw [hz, hl]
      show ((((drain_inputs s).full_context ++ [(⟨"user", prompt_trigger⟩ : Message)] ++ l).dropLast)
          ++ zs).head? = s.full_context.head?
      rw [drain_inputs, drain_list_full_context]
      show ((((s.full_context ++
            s.pending_user_input.map
              (fun inp => (⟨"user", "React to this: " ++ inp⟩ : Message)))
          ++ [(⟨"user", prompt_trigger⟩ : Message)] ++ l).dropLast) ++ zs).head? = s.full_context.head?
      simp only [List.append_assoc]
      exact head?_sandwich _ _ _ hne (by simp)
    · rw [consciousness_iteration, if_neg hr]
  · intro sum err pre s hne
    by_cases hr : s.running = true
    · rw [consciousness_iteration_fail, if_pos hr]
      show (((run_stream_flags
          ⟨"", false, "", (drain_inputs s).full_context ++ [⟨"user", prompt_trigger⟩], []⟩
          pre).full_context).dropLast).head? = s.full_context.head?
      obtain ⟨l, hl⟩ := run_stream_flags_context_append pre
          ⟨"", false, "", (drain_inputs s).full_context ++ [⟨"user", prompt_trigger⟩], []⟩
      rw [hl]
      show ((((drain_inputs s).full_context ++ [(⟨"user", prompt_trigger⟩ : Message)] ++ l).dropLast)).head?
          = s.full_context.head?
      rw [drain_inputs, drain_list_full_context]
      show ((((s.full_context ++
            s.pending_user_input.map
              (fun inp => (⟨"user", "React to this: " ++ inp⟩ : Message)))
          ++ [(⟨"user", prompt_trigger⟩ : Message)] ++ l).dropLast)).head? = s.full_context.head?
      simp only [List.append_assoc]
      exact head?_dropLast_append _ _ hne (by simp)
    · rw [consciousness_iteration_fail, if_neg hr]

/-- Witness for C9 at concrete session states. -/
theorem sycon_c9_witness :
    ((start_new_session true "P" ⟨false, "", [], [], ""⟩).1.full_context).head?
      = some ⟨"system", "P"⟩
    ∧ ((consciousness_iteration "s" [(true, "a")]
        ⟨true, "", ["u"], [⟨"system", "P"⟩], ""⟩).state.full_context).head?
      = some ⟨"system", "P"⟩
    ∧ ((consciousness_iteration_fail "s" "E" [(true, "a")]
        ⟨true, "", ["u"], [⟨"system", "P"⟩], ""⟩).state.full_context).head?
      = some ⟨"system", "P"⟩ := by
  obtain ⟨h1, h2, h3⟩ := sycon_c9_system_first
  exact ⟨h1 "P" ⟨false, "", [], [], ""⟩,
    (h2 "s" [(true, "a")] ⟨true, "", ["u"], [⟨"system", "P"⟩], ""⟩ (by decide)).trans rfl,
    (h3 "s" "E" [(true, "a")] ⟨true, "", ["u"], [⟨"system", "P"⟩], ""⟩ (by decide)).trans rfl⟩
